import Mathlib

/-!
Verification of the satellite orbital simulation core (physics engine,
fleet mutation operations) against its natural-language specification.

The development shallowly embeds the source's numeric code over the real
numbers: `physics-engine.ts` (per-satellite state, the substepped
velocity-Verlet integrator, the piecewise atmospheric density model,
crash handling, time-scale clamping, satellite creation) and
`simulation.ts` (hard reset and live apply of UI-supplied parameters).
DOM/rendering side effects (meshes, trails, status text, notifications)
are external collaborators and are not part of the embedded state.
-/

noncomputable section

open Real

/-! ### Constants (simulation.ts lines 9-12) -/

def EARTH_RADIUS : ℝ := 6371000

def EARTH_MASS : ℝ := 5.972e24

def G : ℝ := 6.6743e-11

/-! ### 3D vectors (the subset of THREE.Vector3 the physics uses).
`normalize` divides by `length() || 1`, so the zero vector normalizes
to itself, as in THREE. `smul` is `multiplyScalar`. -/

structure Vec3 where
  x : ℝ
  y : ℝ
  z : ℝ

def Vec3.add (a b : Vec3) : Vec3 := ⟨a.x + b.x, a.y + b.y, a.z + b.z⟩

def Vec3.smul (a : Vec3) (c : ℝ) : Vec3 := ⟨a.x * c, a.y * c, a.z * c⟩

def Vec3.norm (a : Vec3) : ℝ := Real.sqrt (a.x ^ 2 + a.y ^ 2 + a.z ^ 2)

def Vec3.normalize (a : Vec3) : Vec3 :=
  a.smul (1 / (if a.norm = 0 then 1 else a.norm))

def Vec3.zero : Vec3 := ⟨0, 0, 0⟩

/-! ### Per-satellite state (physics-engine.ts lines 8-26).
Optional TypeScript fields are `Option`s; the physics reads them through
the same `?? default` fallbacks the source uses (`Option.getD`).
`crashed` is attached dynamically by the source (`(sat as any).crashed`),
absent meaning false. The unused presentation fields `initialVelocity`
and `velocityDirection` are never read or written by the embedded
operations and are omitted. -/

structure Satellite where
  position : Vec3
  velocity : Vec3
  mass : ℝ
  height : Option ℝ := none
  targetHeight : Option ℝ := none
  dragCoefficient : Option ℝ := none
  area : Option ℝ := none
  initialDensity : Option ℝ := none
  densityScaleHeight : Option ℝ := none
  airEnabled : Option Bool := none
  timeScale : Option ℝ := none
  crashed : Bool := false

def dfltSat : Satellite := { position := Vec3.zero, velocity := Vec3.zero, mass := 0 }

/-! ### Atmospheric density model.
The substep loop contains two textually identical copies of the
ten-layer density table: `rhoFirst` is physics-engine.ts lines 180-200
(evaluated at the pre-step position), `rhoSecond` is lines 249-269
(evaluated at the half-step position). Both take the already-clamped
altitude `h = max 0 (distance - EARTH_RADIUS)` of their call sites. -/

def rhoFirst (h : ℝ) : ℝ :=
  if h < 11000 then 1.225 * (1 - 0.0065 * h / 288.15) ^ (4.256 : ℝ)
  else if h < 20000 then 0.3639 * Real.exp (-(h - 11000) / 6341.6)
  else if h < 32000 then 0.0880 * Real.exp (-(h - 20000) / 7360.0)
  else if h < 47000 then 0.0132 * Real.exp (-(h - 32000) / 8000.0)
  else if h < 51000 then 0.00143 * Real.exp (-(h - 47000) / 7500.0)
  else if h < 71000 then 0.000086 * Real.exp (-(h - 51000) / 10000.0)
  else if h < 100000 then 0.0000032 * Real.exp (-(h - 71000) / 15000.0)
  else if h < 200000 then 0.0000001 * Real.exp (-(h - 100000) / 25000.0)
  else if h < 500000 then 0.00000001 * Real.exp (-(h - 200000) / 100000.0)
  else 0.000000001 * Real.exp (-(h - 500000) / 500000.0)

def rhoSecond (h : ℝ) : ℝ :=
  if h < 11000 then 1.225 * (1 - 0.0065 * h / 288.15) ^ (4.256 : ℝ)
  else if h < 20000 then 0.3639 * Real.exp (-(h - 11000) / 6341.6)
  else if h < 32000 then 0.0880 * Real.exp (-(h - 20000) / 7360.0)
  else if h < 47000 then 0.0132 * Real.exp (-(h - 32000) / 8000.0)
  else if h < 51000 then 0.00143 * Real.exp (-(h - 47000) / 7500.0)
  else if h < 71000 then 0.000086 * Real.exp (-(h - 51000) / 10000.0)
  else if h < 100000 then 0.0000032 * Real.exp (-(h - 71000) / 15000.0)
  else if h < 200000 then 0.0000001 * Real.exp (-(h - 100000) / 25000.0)
  else if h < 500000 then 0.00000001 * Real.exp (-(h - 200000) / 100000.0)
  else 0.000000001 * Real.exp (-(h - 500000) / 500000.0)

/-- Modelled from the spec, section 4.1: the ten-layer density table as the
spec states it, applied to the absolute altitude with negative input
clamped to 0.  Used only to compare against the source's two in-loop
density evaluations. -/
def specDensity (altitude : ℝ) : ℝ :=
  let h := max 0 altitude
  if h < 11000 then 1.225 * (1 - 0.0065 * h / 288.15) ^ (4.256 : ℝ)
  else if h < 20000 then 0.3639 * Real.exp (-(h - 11000) / 6341.6)
  else if h < 32000 then 0.0880 * Real.exp (-(h - 20000) / 7360.0)
  else if h < 47000 then 0.0132 * Real.exp (-(h - 32000) / 8000.0)
  else if h < 51000 then 0.00143 * Real.exp (-(h - 47000) / 7500.0)
  else if h < 71000 then 0.000086 * Real.exp (-(h - 51000) / 10000.0)
  else if h < 100000 then 0.0000032 * Real.exp (-(h - 71000) / 15000.0)
  else if h < 200000 then 0.0000001 * Real.exp (-(h - 100000) / 25000.0)
  else if h < 500000 then 0.00000001 * Real.exp (-(h - 200000) / 100000.0)
  else 0.000000001 * Real.exp (-(h - 500000) / 500000.0)

/-- Modelled from the spec, section 4.3: `tangential_velocity(position, speed)`
returns a vector of magnitude `speed` in direction `(-y, x, 0)` normalized
(perpendicular to `position`'s projection onto the z = 0 plane).  The claim
about satellite creation compares the source against this definition. -/
def tangentialVelocity (position : Vec3) (speed : ℝ) : Vec3 :=
  ((⟨-position.y, position.x, 0⟩ : Vec3).normalize).smul speed

/-! ### Effective per-satellite time delta (physics-engine.ts lines 83-99).
Two sequential `if` statements each recompute `dt` from scratch; the
second one overwrites the first. -/

def maxSafeTimeScale : ℝ := 20

def maxSatelliteTimeScale : ℝ := 10

def effectiveDt (deltaTime globalTimeScale satTimeScale : ℝ) : ℝ :=
  let dt := deltaTime * globalTimeScale * satTimeScale
  let dt2 := if globalTimeScale > maxSafeTimeScale
    then deltaTime * maxSafeTimeScale * satTimeScale else dt
  if satTimeScale > maxSatelliteTimeScale
    then deltaTime * globalTimeScale * maxSatelliteTimeScale else dt2

/-! ### Safety overrides (physics-engine.ts lines 129-141), evaluated once
per tick before substepping; they write `airEnabled := false` back into
the stored satellite state. -/

def safetyOverrides (sat : Satellite) : Satellite :=
  let velocityMagnitude := sat.velocity.norm
  let escapeVelocity := Real.sqrt (2 * G * EARTH_MASS / sat.position.norm)
  let sat1 := if velocityMagnitude > escapeVelocity * 0.95
    then { sat with airEnabled := some false } else sat
  let altitude := sat1.position.norm - EARTH_RADIUS
  if altitude < 100000 then { sat1 with airEnabled := some false } else sat1

/-- physics-engine.ts lines 362-402: the physics-state effect of a crash
(mesh hiding, trail clearing, notifications are external side effects). -/
def handleSatelliteCrash (sat : Satellite) : Satellite := { sat with crashed := true }

/-! ### One substep of the velocity-Verlet integration
(physics-engine.ts lines 149-306), split into the source's named
intermediate quantities. -/

def maxStep : ℝ := 0.01

def maxSubsteps : ℕ := 50

def crashThreshold : ℝ := 80000

/-- Gravitational force at a position (lines 166-171 and 238-240). -/
def gravityForceAt (position : Vec3) (mass : ℝ) : Vec3 :=
  let distance := position.norm
  let gravityMagnitude := G * EARTH_MASS * mass / (distance * distance)
  (position.normalize.smul (-1)).smul gravityMagnitude

/-- Drag force at the pre-step position using the pre-step velocity
(lines 173-216). -/
def dragForceFirst (sat : Satellite) : Vec3 :=
  if sat.airEnabled.getD false then
    let h := max 0 (sat.position.norm - EARTH_RADIUS)
    let rho := rhoFirst h
    let v := sat.velocity.norm
    if v > 1 then
      (sat.velocity.normalize).smul
        (-(0.5 * rho * v * v * (sat.dragCoefficient.getD 2.2) * (sat.area.getD 4)))
    else Vec3.zero
  else Vec3.zero

/-- Half-step velocity (line 224). -/
def velocityHalfOf (sat : Satellite) (step : ℝ) : Vec3 :=
  let totalForce := (gravityForceAt sat.position sat.mass).add (dragForceFirst sat)
  let acceleration := totalForce.smul (1 / sat.mass)
  sat.velocity.add (acceleration.smul (step * 0.5))

/-- Substep position update (line 225). -/
def substepNewPosition (sat : Satellite) (step : ℝ) : Vec3 :=
  sat.position.add ((velocityHalfOf sat step).smul step)

/-- Drag force at the updated position using the half-step velocity
(lines 242-279). -/
def dragForceSecond (sat : Satellite) (newPosition velocityHalf : Vec3) : Vec3 :=
  if sat.airEnabled.getD false then
    let h := max 0 (newPosition.norm - EARTH_RADIUS)
    let rho := rhoSecond h
    let v := velocityHalf.norm
    if v > 1 then
      (velocityHalf.normalize).smul
        (-(0.5 * rho * v * v * (sat.dragCoefficient.getD 2.2) * (sat.area.getD 4)))
    else Vec3.zero
  else Vec3.zero

/-- Gradual height adjustment toward `targetHeight` (lines 287-303). -/
def adjustTargetHeight (sat : Satellite) : Satellite :=
  match sat.targetHeight with
  | none => sat
  | some th =>
    let currentHeight := sat.position.norm - EARTH_RADIUS
    let heightDiff := th - currentHeight
    if |heightDiff| > 100 then
      let adjustment := Real.sign heightDiff * min |heightDiff| 500
      { sat with position := sat.position.add (sat.position.normalize.smul adjustment) }
    else { sat with targetHeight := none }

/-- The non-crashing completion of one substep: half-step velocity,
position update, force recomputation at the new position, full velocity
update, then the target-height adjustment (lines 218-303). -/
def substepIntegrate (sat : Satellite) (step : ℝ) : Satellite :=
  let velocityHalf := velocityHalfOf sat step
  let newPosition := substepNewPosition sat step
  let newGravityForce := gravityForceAt newPosition sat.mass
  let newDragForce := dragForceSecond sat newPosition velocityHalf
  let newAcceleration := (newGravityForce.add newDragForce).smul (1 / sat.mass)
  let newVelocity := sat.velocity.add (newAcceleration.smul step)
  adjustTargetHeight { sat with position := newPosition, velocity := newVelocity }

/-- The substep `while` loop (lines 143-306), with fuel equal to the
remaining substep budget (`maxSubsteps - substepCount`).  Returns the
final state, the number of substeps entered, and the remaining `dt`
(which the caller drops).  A crash at the start of a substep or right
after its position update breaks out of the loop. -/
def substepLoop : ℕ → ℝ → Satellite → Satellite × ℕ × ℝ
  | 0, dt, sat => (sat, 0, dt)
  | fuel + 1, dt, sat =>
    if dt > 0 then
      if sat.position.norm - EARTH_RADIUS ≤ crashThreshold then
        (handleSatelliteCrash sat, 1, dt)
      else if (substepNewPosition sat (min maxStep dt)).norm - EARTH_RADIUS ≤ crashThreshold then
        (handleSatelliteCrash { sat with position := substepNewPosition sat (min maxStep dt) }, 1, dt)
      else
        let next := substepLoop fuel (dt - min maxStep dt) (substepIntegrate sat (min maxStep dt))
        (next.1, next.2.1 + 1, next.2.2)
    else (sat, 0, dt)

/-- One tick of physics for a single satellite (the body of the satellite
loop in `updatePhysics`, lines 80-353): compute the scaled `dt`, skip
crashed satellites, apply the safety overrides, then run the substep
loop.  Trail, mesh and status updates are external presentation. -/
def updatePhysicsSat (globalTimeScale deltaTime : ℝ) (sat : Satellite) : Satellite :=
  let dt := effectiveDt deltaTime globalTimeScale (sat.timeScale.getD 1)
  if sat.crashed then sat
  else (substepLoop maxSubsteps dt (safetyOverrides sat)).1

/-- `updatePhysics` over the whole fleet (lines 80-356). -/
def updatePhysics (globalTimeScale deltaTime : ℝ) (sats : List Satellite) : List Satellite :=
  sats.map (updatePhysicsSat globalTimeScale deltaTime)

/-! ### Satellite creation (physics-engine.ts lines 34-69).
JavaScript `||` treats 0 as falsy, so a zero position length and a zero
mass fall back to the defaults, while `??` fallbacks replace only
missing options. -/

structure AddOptions where
  position : Option Vec3 := none
  velocity : Option Vec3 := none
  mass : Option ℝ := none
  dragCoefficient : Option ℝ := none
  area : Option ℝ := none
  initialDensity : Option ℝ := none
  densityScaleHeight : Option ℝ := none
  airEnabled : Option Bool := none
  timeScale : Option ℝ := none

def addSatelliteState (options : AddOptions) : Satellite :=
  let height := match options.position with
    | some p => if p.norm = 0 then EARTH_RADIUS + 400000 else p.norm
    | none => EARTH_RADIUS + 400000
  let position := options.position.getD ⟨height, 0, 0⟩
  let radius := height
  let circularVelocity := Real.sqrt (G * EARTH_MASS / radius)
  let velocity := options.velocity.getD ⟨0, circularVelocity, 0⟩
  let mass := match options.mass with
    | some m => if m = 0 then 1000 else m
    | none => 1000
  { position := position
    velocity := velocity
    mass := mass
    dragCoefficient := some (options.dragCoefficient.getD 2.2)
    area := some (options.area.getD 4)
    initialDensity := some (options.initialDensity.getD 1.225)
    densityScaleHeight := some (options.densityScaleHeight.getD 8500)
    airEnabled := some (options.airEnabled.getD true)
    timeScale := some (options.timeScale.getD 1) }

/-! ### UI-driven fleet mutations (simulation.ts).
The form values read by `resetSatellite` and
`applyCurrentSatelliteFromUI`; elements the source guards with existence
checks are `Option`s (absent element means the source keeps the old
value, or uses its inline fallback). -/

structure UIInputs where
  heightKm : ℝ
  velocity : ℝ
  directionDeg : ℝ
  mass : ℝ
  satSpeed : Option ℝ := none
  keepCircular : Option Bool := none
  airEnabled : Option Bool := none
  dragCoeff : Option ℝ := none
  area : Option ℝ := none
  rho0 : Option ℝ := none
  scaleH : Option ℝ := none

/-- JavaScript `Math.atan2`, used by the live-apply velocity comparison. -/
def atan2 (y x : ℝ) : ℝ :=
  if 0 < x then Real.arctan (y / x)
  else if x < 0 then
    (if 0 ≤ y then Real.arctan (y / x) + Real.pi else Real.arctan (y / x) - Real.pi)
  else if 0 < y then Real.pi / 2
  else if y < 0 then -(Real.pi / 2)
  else 0

/-- simulation.ts lines 125-194: live apply.  Updates the selected
satellite without touching its position; the index guard
`satellites[idx] && states[idx]` makes an invalid index a silent no-op.
There is no check of the `crashed` flag. -/
def applyCurrentSatelliteFromUI (states : List Satellite) (idx : ℕ) (ui : UIInputs) :
    List Satellite :=
  if h : idx < states.length then
    let sat := states.get ⟨idx, h⟩
    let height := ui.heightKm * 1000
    let velocityMag := ui.velocity
    let perSatScale := ui.satSpeed.getD 1
    let sat1 := { sat with height := some height }
    let sat2 :=
      if ui.keepCircular.getD false then
        let r := sat1.position.norm
        let vCirc := Real.sqrt (G * EARTH_MASS / max r (EARTH_RADIUS + 1))
        let radial : Vec3 := ⟨sat1.position.x, sat1.position.y, 0⟩
        let tangential := (⟨-radial.y, radial.x, 0⟩ : Vec3).normalize
        { sat1 with velocity := tangential.smul vCirc }
      else
        let currentSpeed := sat1.velocity.norm
        let currentDirection := atan2 sat1.velocity.y sat1.velocity.x * 180 / Real.pi
        if |velocityMag - currentSpeed| > 1 ∨ |ui.directionDeg - currentDirection| > 1 then
          let directionRad := ui.directionDeg * Real.pi / 180
          { sat1 with velocity :=
            ⟨velocityMag * Real.cos directionRad, velocityMag * Real.sin directionRad, 0⟩ }
        else sat1
    let sat3 := { sat2 with mass := ui.mass, timeScale := some perSatScale }
    let sat4 := { sat3 with
      airEnabled := match ui.airEnabled with | some b => some b | none => sat3.airEnabled
      dragCoefficient := match ui.dragCoeff with | some v => some v | none => sat3.dragCoefficient
      area := match ui.area with | some v => some v | none => sat3.area
      initialDensity := match ui.rho0 with | some v => some v | none => sat3.initialDensity
      densityScaleHeight := match ui.scaleH with | some v => some v | none => sat3.densityScaleHeight }
    states.set idx sat4
  else states

/-- The velocity magnitude `resetSatellite` uses: the form value, or the
circular speed at the requested radius when keep-circular is checked
(simulation.ts lines 83-89). -/
def resetVelocityMag (ui : UIInputs) : ℝ :=
  if ui.keepCircular.getD false then
    Real.sqrt (G * EARTH_MASS / (EARTH_RADIUS + ui.heightKm * 1000))
  else ui.velocity

/-- simulation.ts lines 66-123: hard reset of one satellite from the UI.
Overwrites position, velocity and mass, and clears the crashed flag. -/
def resetSatellite (states : List Satellite) (idx : ℕ) (ui : UIInputs) : List Satellite :=
  if h : idx < states.length then
    let sat := states.get ⟨idx, h⟩
    let r := EARTH_RADIUS + ui.heightKm * 1000
    let directionRad := ui.directionDeg * Real.pi / 180
    states.set idx { sat with
      position := ⟨r, 0, 0⟩
      velocity := ⟨resetVelocityMag ui * Real.cos directionRad,
                   resetVelocityMag ui * Real.sin directionRad, 0⟩
      mass := ui.mass
      crashed := false }
  else states

/-! ### Basic vector evaluation lemmas -/

theorem norm_single_x (a : ℝ) : Vec3.norm ⟨a, 0, 0⟩ = |a| := by
  rw [Vec3.norm]; norm_num [Real.sqrt_sq_eq_abs]

theorem norm_single_y (a : ℝ) : Vec3.norm ⟨0, a, 0⟩ = |a| := by
  rw [Vec3.norm]; norm_num [Real.sqrt_sq_eq_abs]

theorem norm_zero_vec : Vec3.norm ⟨0, 0, 0⟩ = 0 := by
  rw [Vec3.norm]; norm_num

/-- Claim C3: the source computes the effective substepped time delta with
two overwriting clamp branches; when both the global and the per-satellite
multiplier exceed their ceilings the second branch recomputes `dt` from the
unclamped global value, so the result is dt_requested · g · 10 rather than
dt_requested · min(g, 20) · min(s, 10).  At deltaTime 1, global 1000,
per-satellite 100 the code yields 10000 while the claim requires 200; the
claim's single-excess scenario (global 1000, per-satellite 1 -> 20) does
hold. -/
theorem claim3_time_scale_clamping :
    effectiveDt 1 1000 100 = 10000 ∧
    (1 : ℝ) * min 1000 20 * min 100 10 = 200 ∧
    effectiveDt 1 1000 1 = 20 := by
  refine ⟨?_, by norm_num, ?_⟩ <;>
    norm_num [effectiveDt, maxSafeTimeScale, maxSatelliteTimeScale]

/-- Claim C4: for every real altitude offset, both in-substep density
evaluations (the first at the pre-step position, the second at the
half-step position) agree with the spec's ten-layer table applied to the
absolute altitude clamped at 0. -/
theorem claim4_density_table_refinement :
    ∀ a : ℝ, rhoFirst (max 0 a) = specDensity a ∧ rhoSecond (max 0 a) = specDensity a :=
  fun _ => ⟨rfl, rfl⟩

/-- A UI form state supplying non-positive mass, drag coefficient, area and
density parameters, used to exercise the live-apply path. -/
def uiNonPositive : UIInputs :=
  { heightKm := 400, velocity := 0, directionDeg := 0, mass := -3,
    satSpeed := some 1, keepCircular := some false,
    airEnabled := some true, dragCoeff := some (-1), area := some 0,
    rho0 := some (-2), scaleH := some 0 }

/-- Add options supplying zero and negative drag and density parameters. -/
def optsNonPositive : AddOptions :=
  { dragCoefficient := some 0, area := some (-2),
    initialDensity := some (-1), densityScaleHeight := some 0 }

/-- Counterexample to claim C8: an add request with mass -5 is not rejected;
the negative mass is stored unchanged in the appended satellite state. -/
theorem claim8_no_validation_cex :
    (addSatelliteState { mass := some (-5) }).mass = -5 := by
  norm_num [addSatelliteState]

/-- Claim C8 (amended): configuration-time inputs are not validated.  At add
time a mass of exactly 0 is silently replaced by the default 1000 (JavaScript
falsy coalescing) while a negative mass is stored as-is, and zero or negative
drag coefficient, area and density parameters are stored unchanged; the live
apply path likewise stores whatever values the form supplies, with no
NonPositiveParameter rejection anywhere. -/
theorem claim8_no_validation :
    (addSatelliteState { mass := some (-5) }).dragCoefficient = some 2.2 ∧
    (addSatelliteState { mass := some 0 }).mass = 1000 ∧
    (addSatelliteState optsNonPositive).dragCoefficient = some 0 ∧
    (addSatelliteState optsNonPositive).area = some (-2) ∧
    (addSatelliteState optsNonPositive).initialDensity = some (-1) ∧
    (∀ sat : Satellite,
      ((applyCurrentSatelliteFromUI [sat] 0 uiNonPositive).getD 0 dfltSat).mass = -3 ∧
      ((applyCurrentSatelliteFromUI [sat] 0 uiNonPositive).getD 0 dfltSat).dragCoefficient
        = some (-1) ∧
      ((applyCurrentSatelliteFromUI [sat] 0 uiNonPositive).getD 0 dfltSat).area = some 0) := by
  refine ⟨by norm_num [addSatelliteState], by norm_num [addSatelliteState],
    by norm_num [addSatelliteState, optsNonPositive],
    by norm_num [addSatelliteState, optsNonPositive],
    by norm_num [addSatelliteState, optsNonPositive], ?_⟩
  intro sat
  refine ⟨?_, ?_, ?_⟩ <;>
    simp [applyCurrentSatelliteFromUI, uiNonPositive, List.getD]

/-- Counterexample to claim C6: for an add request supplying the position
(0, 6771000, 0) and no velocity, the source stores the fixed direction
(0, circularVelocity, 0), not the tangential direction (-y, x, 0)
normalized, which at this position would be (-circularVelocity, 0, 0). -/
theorem claim6_default_velocity_cex :
    (addSatelliteState { position := some ⟨0, 6771000, 0⟩ }).velocity
      ≠ tangentialVelocity ⟨0, 6771000, 0⟩ (Real.sqrt (G * EARTH_MASS / 6771000)) := by
  have hnp : Vec3.norm ⟨0, 6771000, 0⟩ = 6771000 := by rw [norm_single_y]; norm_num
  have hnm : Vec3.norm ⟨-6771000, 0, 0⟩ = 6771000 := by rw [norm_single_x]; norm_num
  have hs : 0 < Real.sqrt (G * EARTH_MASS / 6771000) :=
    Real.sqrt_pos.mpr (by norm_num [G, EARTH_MASS])
  intro hEq
  have hx := congrArg Vec3.x hEq
  simp [addSatelliteState, tangentialVelocity, Vec3.normalize, Vec3.smul, hnp, hnm] at hx
  have hq : 0 < Real.sqrt (G * EARTH_MASS) := Real.sqrt_pos.mpr (by norm_num [G, EARTH_MASS])
  nlinarith [hs, hx, hq]

/-- Claim C6 (amended): for every add request that supplies a position of
nonzero length and no velocity, the appended satellite's velocity has the
claimed magnitude sqrt(G·M/|position|) but the fixed direction (0, 1, 0):
the source hardcodes (0, circularVelocity, 0) instead of deriving the
tangential direction (-y, x, 0) normalized, so the direction part of the
claim only holds for positions on the positive x-axis. -/
theorem claim6_default_velocity (p : Vec3) (hp : p.norm ≠ 0) :
    (addSatelliteState { position := some p }).velocity
      = ⟨0, Real.sqrt (G * EARTH_MASS / p.norm), 0⟩ ∧
    ((addSatelliteState { position := some p }).velocity).norm
      = Real.sqrt (G * EARTH_MASS / p.norm) := by
  constructor
  · simp [addSatelliteState, hp]
  · simp only [addSatelliteState, hp, if_false, Option.getD_none, Option.getD_some]
    rw [norm_single_y, abs_of_nonneg (Real.sqrt_nonneg _)]

theorem claim6_default_velocity_witness :
    Vec3.norm ⟨6771000, 0, 0⟩ ≠ 0 ∧
    (addSatelliteState { position := some ⟨6771000, 0, 0⟩ }).velocity
      = ⟨0, Real.sqrt (G * EARTH_MASS / Vec3.norm ⟨6771000, 0, 0⟩), 0⟩ := by
  have h : Vec3.norm ⟨6771000, 0, 0⟩ ≠ 0 := by rw [norm_single_x]; norm_num
  exact ⟨h, (claim6_default_velocity ⟨6771000, 0, 0⟩ h).1⟩

/-- A crashed satellite state used to exercise the live-apply and reset
paths. -/
def satCrashed : Satellite :=
  { position := ⟨6771000, 0, 0⟩, velocity := ⟨0, 0, 0⟩, mass := 1000,
    dragCoefficient := some 2.2, area := some 4, initialDensity := some 1.225,
    densityScaleHeight := some 8500, airEnabled := some true, timeScale := some 1,
    crashed := true }

/-- A UI form state used for the live-apply and reset counterexamples. -/
def uiPlain : UIInputs :=
  { heightKm := 400, velocity := 0, directionDeg := 0, mass := 2000,
    satSpeed := some 1, keepCircular := some false }

/-- Counterexample to claim C9: a live update aimed at a crashed satellite
does not fail and does not leave the state unchanged — the crashed
satellite's mass is overwritten like any other satellite's. -/
theorem claim9_live_update_cex :
    satCrashed.crashed = true ∧
    ((applyCurrentSatelliteFromUI [satCrashed] 0 uiPlain).getD 0 dfltSat).mass = 2000 := by
  refine ⟨rfl, ?_⟩
  simp [applyCurrentSatelliteFromUI, uiPlain, List.getD]

/-- Claim C9 (amended): a live update with an invalid index is a silent
no-op returning the fleet unchanged (no error value is surfaced); with a
valid index it updates the mutable fields (mass, per-satellite time scale,
and the air-resistance parameters when the corresponding form elements are
present) without rejecting crashed satellites — the crashed flag is not
consulted and is left unchanged — and it never modifies the satellite's
position (no teleport). -/
theorem claim9_live_update (states : List Satellite) (idx : ℕ) (ui : UIInputs) :
    (states.length ≤ idx → applyCurrentSatelliteFromUI states idx ui = states) ∧
    (idx < states.length →
      ((applyCurrentSatelliteFromUI states idx ui).getD idx dfltSat).position
        = (states.getD idx dfltSat).position ∧
      ((applyCurrentSatelliteFromUI states idx ui).getD idx dfltSat).crashed
        = (states.getD idx dfltSat).crashed ∧
      ((applyCurrentSatelliteFromUI states idx ui).getD idx dfltSat).mass = ui.mass ∧
      ((applyCurrentSatelliteFromUI states idx ui).getD idx dfltSat).timeScale
        = some (ui.satSpeed.getD 1) ∧
      (∀ v : ℝ, ui.dragCoeff = some v →
        ((applyCurrentSatelliteFromUI states idx ui).getD idx dfltSat).dragCoefficient
          = some v) ∧
      (ui.dragCoeff = none →
        ((applyCurrentSatelliteFromUI states idx ui).getD idx dfltSat).dragCoefficient
          = (states.getD idx dfltSat).dragCoefficient)) := by
  constructor
  · intro h
    rw [applyCurrentSatelliteFromUI, dif_neg (by omega)]
  · intro h
    rw [applyCurrentSatelliteFromUI, dif_pos h]
    have hset : ∀ v : Satellite, (states.set idx v).getD idx dfltSat = v := by
      intro v
      rw [List.getD, List.get?_eq_getElem?, List.getElem?_set_eq_of_lt _ h, Option.getD_some]
    have hgd : states.getD idx dfltSat = states.get ⟨idx, h⟩ := by
      rw [List.getD, List.get?_eq_getElem?, List.getElem?_eq_getElem h, Option.getD_some]
      rfl
    rw [hset, hgd]
    refine ⟨?_, ?_, ?_, ?_, ?_, ?_⟩
    · simp [apply_ite Satellite.position]
    · simp [apply_ite Satellite.crashed]
    · simp [apply_ite Satellite.mass]
    · simp [apply_ite Satellite.timeScale]
    · intro v hv
      simp [hv, apply_ite Satellite.dragCoefficient]
    · intro hv
      simp [hv, apply_ite Satellite.dragCoefficient]

/-- Witness for claim C9 at a concrete fleet: index 1 is out of range for a
one-satellite fleet (no-op), index 0 is in range. -/
theorem claim9_live_update_witness :
    ([satCrashed].length ≤ 1 ∧ applyCurrentSatelliteFromUI [satCrashed] 1 uiPlain = [satCrashed]) ∧
    (0 < [satCrashed].length ∧
      ((applyCurrentSatelliteFromUI [satCrashed] 0 uiPlain).getD 0 dfltSat).position
        = ([satCrashed].getD 0 dfltSat).position) := by
  refine ⟨⟨by simp, (claim9_live_update [satCrashed] 1 uiPlain).1 (by simp)⟩,
    ⟨by simp, ((claim9_live_update [satCrashed] 0 uiPlain).2 (by simp)).1⟩⟩

/-- Claim C10: the external hard reset clears the crashed flag and
overwrites position, velocity and mass from the supplied form values, so
the satellite is no longer skipped: a subsequent tick runs the full
physics branch (safety overrides and substep loop) on it. -/
theorem claim10_reset_revives (states : List Satellite) (idx : ℕ) (ui : UIInputs)
    (g d : ℝ) (h : idx < states.length) :
    ((resetSatellite states idx ui).getD idx dfltSat).crashed = false ∧
    ((resetSatellite states idx ui).getD idx dfltSat).position
      = ⟨EARTH_RADIUS + ui.heightKm * 1000, 0, 0⟩ ∧
    ((resetSatellite states idx ui).getD idx dfltSat).velocity
      = ⟨resetVelocityMag ui * Real.cos (ui.directionDeg * Real.pi / 180),
         resetVelocityMag ui * Real.sin (ui.directionDeg * Real.pi / 180), 0⟩ ∧
    ((resetSatellite states idx ui).getD idx dfltSat).mass = ui.mass ∧
    updatePhysicsSat g d ((resetSatellite states idx ui).getD idx dfltSat)
      = (substepLoop maxSubsteps
          (effectiveDt d g (((resetSatellite states idx ui).getD idx dfltSat).timeScale.getD 1))
          (safetyOverrides ((resetSatellite states idx ui).getD idx dfltSat))).1 := by
  have hset : ∀ v : Satellite, (states.set idx v).getD idx dfltSat = v := by
    intro v
    rw [List.getD, List.get?_eq_getElem?, List.getElem?_set_eq_of_lt _ h, Option.getD_some]
  simp only [resetSatellite]
  rw [dif_pos h, hset]
  refine ⟨rfl, rfl, rfl, rfl, ?_⟩
  simp only [updatePhysicsSat]
  rw [if_neg (by simp)]

/-- Witness for claim C10 on a concrete crashed satellite. -/
theorem claim10_reset_revives_witness :
    0 < [satCrashed].length ∧
    ((resetSatellite [satCrashed] 0 uiPlain).getD 0 dfltSat).crashed = false ∧
    ((resetSatellite [satCrashed] 0 uiPlain).getD 0 dfltSat).mass = uiPlain.mass := by
  refine ⟨by simp, ?_, ?_⟩
  · exact (claim10_reset_revives [satCrashed] 0 uiPlain 1 1 (by simp)).1
  · exact (claim10_reset_revives [satCrashed] 0 uiPlain 1 1 (by simp)).2.2.2.1


/-! ### Substep-loop invariants -/

theorem adjustTargetHeight_airEnabled (s : Satellite) :
    (adjustTargetHeight s).airEnabled = s.airEnabled := by
  rw [adjustTargetHeight]
  cases s.targetHeight
  · rfl
  · simp only []
    split_ifs <;> rfl

theorem substepIntegrate_airEnabled (s : Satellite) (step : ℝ) :
    (substepIntegrate s step).airEnabled = s.airEnabled := by
  simp only [substepIntegrate]
  rw [adjustTargetHeight_airEnabled]

/-- The substep loop only reads the effective air-resistance flag; it never
writes it back, so the flag stored after the loop is whatever the safety
overrides left in place. -/
theorem substepLoop_airEnabled (f : ℕ) : ∀ (dt : ℝ) (s : Satellite),
    ((substepLoop f dt s).1).airEnabled = s.airEnabled := by
  induction f with
  | zero => intro dt s; rfl
  | succ n ih =>
    intro dt s
    simp only [substepLoop]
    split_ifs <;> simp [handleSatelliteCrash, ih, substepIntegrate_airEnabled]

/-- The loop enters at most `fuel` substeps. -/
theorem substepLoop_count_le (f : ℕ) : ∀ (dt : ℝ) (s : Satellite),
    (substepLoop f dt s).2.1 ≤ f := by
  induction f with
  | zero => intro dt s; exact le_refl 0
  | succ n ih =>
    intro dt s
    simp only [substepLoop]
    split_ifs
    · show 1 ≤ n + 1
      omega
    · show 1 ≤ n + 1
      omega
    · have := ih (dt - min maxStep dt) (substepIntegrate s (min maxStep dt))
      show (substepLoop n (dt - min maxStep dt) (substepIntegrate s (min maxStep dt))).2.1 + 1 ≤ n + 1
      omega
    · show 0 ≤ n + 1
      omega

/-- Unless a crash breaks out of the loop, the remaining time after the loop
is the requested time minus the integrated budget `fuel · maxStep`,
truncated at zero. -/
theorem substepLoop_rem (f : ℕ) : ∀ (dt : ℝ) (s : Satellite), 0 ≤ dt →
    (substepLoop f dt s).1.crashed = true ∨
    (substepLoop f dt s).2.2 = max (dt - maxStep * f) 0 := by
  induction f with
  | zero =>
    intro dt s h
    right
    simp only [substepLoop, Nat.cast_zero, mul_zero, sub_zero]
    exact (max_eq_left h).symm
  | succ n ih =>
    intro dt s h
    simp only [substepLoop]
    split_ifs with h1 h2 h3
    · left; rfl
    · left; rfl
    · have hstep : min maxStep dt ≤ dt := min_le_right _ _
      have hms : (0:ℝ) < maxStep := by norm_num [maxStep]
      rcases ih (dt - min maxStep dt) (substepIntegrate s (min maxStep dt)) (by linarith) with hc | hr
      · left; exact hc
      · right
        simp only []
        rw [hr]
        have hn : (0:ℝ) ≤ (n:ℝ) := Nat.cast_nonneg n
        rcases le_total maxStep dt with hm | hm
        · rw [min_eq_left hm]
          have : dt - maxStep - maxStep * n = dt - maxStep * (n + 1 : ℕ) := by
            push_cast; ring
          rw [this]
        · rw [min_eq_right hm]
          rw [max_eq_right (by nlinarith), max_eq_right (by push_cast; nlinarith)]
    · right
      have hz : dt = 0 := le_antisymm (not_lt.mp h1) h
      subst hz
      rw [zero_sub, max_eq_right (neg_nonpos.mpr (by
        have : (0:ℝ) ≤ ((n:ℝ) + 1) := by positivity
        simp only [maxStep]
        push_cast
        nlinarith))]

/-- Claim C1: a crashed satellite is skipped before any force computation or
safety override, so every subsequent tick leaves its entire state (in
particular position and velocity) unchanged; and within the substep loop,
whenever the altitude is at most 80000 m at the start of a substep, or right
after the substep's position update, the satellite is marked crashed by
`handleSatelliteCrash` with its state frozen at that moment and the loop
returns immediately (no further substeps), so the crash transition happens
exactly once. -/
theorem claim1_crash_transition :
    (∀ (g d : ℝ) (sat : Satellite), sat.crashed = true → updatePhysicsSat g d sat = sat) ∧
    (∀ (fuel : ℕ) (dt : ℝ) (s : Satellite), 0 < dt →
      s.position.norm - EARTH_RADIUS ≤ 80000 →
      substepLoop (fuel + 1) dt s = (handleSatelliteCrash s, 1, dt)) ∧
    (∀ (fuel : ℕ) (dt : ℝ) (s : Satellite), 0 < dt →
      ¬(s.position.norm - EARTH_RADIUS ≤ 80000) →
      (substepNewPosition s (min maxStep dt)).norm - EARTH_RADIUS ≤ 80000 →
      substepLoop (fuel + 1) dt s
        = (handleSatelliteCrash { s with position := substepNewPosition s (min maxStep dt) },
           1, dt)) := by
  refine ⟨?_, ?_, ?_⟩
  · intro g d sat hc
    simp [updatePhysicsSat, hc]
  · intro fuel dt s hdt halt
    simp only [substepLoop]
    rw [if_pos hdt, if_pos (by simpa [crashThreshold] using halt)]
  · intro fuel dt s hdt halt hnew
    simp only [substepLoop]
    rw [if_pos hdt, if_neg (by simpa [crashThreshold] using halt),
      if_pos (by simpa [crashThreshold] using hnew)]

/-- A satellite below the crash threshold (29 km altitude), not crashed. -/
def satLow : Satellite :=
  { position := ⟨6400000, 0, 0⟩, velocity := ⟨0, 0, 0⟩, mass := 1000,
    airEnabled := some true, timeScale := some 1 }

theorem claim1_crash_transition_witness :
    updatePhysicsSat 1 1 satCrashed = satCrashed ∧
    substepLoop 1 1 satLow = (handleSatelliteCrash satLow, 1, 1) := by
  refine ⟨claim1_crash_transition.1 1 1 satCrashed rfl, ?_⟩
  have h : satLow.position.norm - EARTH_RADIUS ≤ 80000 := by
    show Vec3.norm ⟨6400000, 0, 0⟩ - EARTH_RADIUS ≤ 80000
    rw [norm_single_x]
    norm_num [EARTH_RADIUS]
  simpa using claim1_crash_transition.2.1 0 1 satLow (by norm_num) h

/-- A non-crashed satellite at 90 km altitude with air resistance enabled. -/
def satLowAir : Satellite :=
  { position := ⟨6461000, 0, 0⟩, velocity := ⟨0, 0, 0⟩, mass := 1000,
    airEnabled := some true, timeScale := some 1 }

/-- Counterexample to claim C5: the safety override IS persisted.  A tick
with deltaTime 0 (which integrates nothing) on a satellite below 100 km
altitude flips its stored air_resistance_enabled flag from true to false. -/
theorem claim5_override_persists_cex :
    satLowAir.airEnabled = some true ∧
    (updatePhysicsSat 1 0 satLowAir).airEnabled = some false := by
  refine ⟨rfl, ?_⟩
  have hv : satLowAir.velocity.norm = 0 := norm_zero_vec
  have hp : satLowAir.position.norm = 6461000 := by
    rw [show satLowAir.position.norm = Vec3.norm ⟨6461000, 0, 0⟩ from rfl, norm_single_x]
    norm_num
  have hesc : ¬ (satLowAir.velocity.norm
      > Real.sqrt (2 * G * EARTH_MASS / satLowAir.position.norm) * 0.95) := by
    rw [hv]
    exact not_lt.mpr (by positivity)
  have hsafe : (safetyOverrides satLowAir).airEnabled = some false := by
    simp only [safetyOverrides]
    rw [if_neg hesc]
    rw [if_pos (by rw [hp]; norm_num [EARTH_RADIUS])]
  simp only [updatePhysicsSat]
  rw [if_neg (by simp [satLowAir]), substepLoop_airEnabled, hsafe]

/-- Claim C5 (amended): before substepping, if the satellite's speed exceeds
95% of the escape velocity at its current radius or its altitude is below
100000 m, the tick's force computation runs on a state whose
air-resistance flag is false — but the override is written back into the
stored satellite state: after the tick the stored flag is false, not its
pre-tick value. -/
theorem claim5_safety_override (sat : Satellite) (g d : ℝ) (hc : sat.crashed = false)
    (h : sat.velocity.norm > Real.sqrt (2 * G * EARTH_MASS / sat.position.norm) * 0.95
         ∨ sat.position.norm - EARTH_RADIUS < 100000) :
    (safetyOverrides sat).airEnabled = some false ∧
    updatePhysicsSat g d sat
      = (substepLoop maxSubsteps (effectiveDt d g (sat.timeScale.getD 1))
          (safetyOverrides sat)).1 ∧
    (updatePhysicsSat g d sat).airEnabled = some false := by
  have h1 : (safetyOverrides sat).airEnabled = some false := by
    simp only [safetyOverrides]
    split_ifs with ha hb hb2
    · rfl
    · rfl
    · rfl
    · exact absurd (h.resolve_left ha) hb2
  refine ⟨h1, ?_, ?_⟩
  · simp only [updatePhysicsSat]
    rw [if_neg (by simp [hc])]
  · simp only [updatePhysicsSat]
    rw [if_neg (by simp [hc]), substepLoop_airEnabled, h1]

theorem claim5_safety_override_witness :
    satLowAir.crashed = false ∧
    satLowAir.position.norm - EARTH_RADIUS < 100000 ∧
    (safetyOverrides satLowAir).airEnabled = some false := by
  have hd : satLowAir.position.norm - EARTH_RADIUS < 100000 := by
    show Vec3.norm ⟨6461000, 0, 0⟩ - EARTH_RADIUS < 100000
    rw [norm_single_x]
    norm_num [EARTH_RADIUS]
  exact ⟨rfl, hd, (claim5_safety_override satLowAir 1 1 rfl (Or.inr hd)).1⟩

/-- Claim C7: the substep loop enters at most 50 substeps, and — unless a
crash broke out of the loop — the total simulated time integrated in one
tick (requested dt minus the remaining dt, which the tick then drops) is
min(dt, 0.5 s): each substep advances min(0.01 s, remaining dt) and any
remainder beyond the 50-substep budget is discarded, not carried over. -/
theorem claim7_substep_budget (dt : ℝ) (sat : Satellite) (h : 0 ≤ dt) :
    (substepLoop maxSubsteps dt sat).2.1 ≤ 50 ∧
    ((substepLoop maxSubsteps dt sat).1.crashed = false →
      dt - (substepLoop maxSubsteps dt sat).2.2 = min dt 0.5) := by
  constructor
  · exact substepLoop_count_le maxSubsteps dt sat
  · intro hc
    rcases substepLoop_rem maxSubsteps dt sat h with h1 | h1
    · rw [hc] at h1
      exact absurd h1 (by simp)
    · rw [h1]
      have hms : maxStep * (maxSubsteps : ℕ) = 0.5 := by norm_num [maxStep, maxSubsteps]
      rw [hms]
      rcases le_total dt 0.5 with hd | hd
      · rw [max_eq_right (by linarith), min_eq_left hd]
        ring
      · rw [max_eq_left (by linarith), min_eq_right hd]
        ring

theorem claim7_substep_budget_witness :
    (0:ℝ) ≤ 1 ∧ (substepLoop maxSubsteps 1 satLowAir).2.1 ≤ 50 :=
  ⟨by norm_num, (claim7_substep_budget 1 satLowAir (by norm_num)).1⟩


/-! ### Density model analysis: generic bounds -/

/-- Degree-5 Taylor upper bound for `exp` on `[0, 1]`. -/
theorem exp_le_taylor5 {x : ℝ} (h1 : 0 ≤ x) (h2 : x ≤ 1) :
    Real.exp x ≤ 1 + x + x ^ 2 / 2 + x ^ 3 / 6 + x ^ 4 / 24 + x ^ 5 / 100 := by
  have h := Real.exp_bound' h1 h2 (n := 5) (by norm_num)
  refine h.trans (le_of_eq ?_)
  rw [Finset.sum_range_succ, Finset.sum_range_succ, Finset.sum_range_succ,
    Finset.sum_range_succ, Finset.sum_range_succ, Finset.sum_range_zero]
  norm_num [Nat.factorial]
  ring

/-- Upper bound for `exp (1 + x)` on `x ∈ [0, 1]` through the `d9` bound on
`exp 1` and the Taylor bound on the fractional part. -/
theorem exp_one_add_le {x u : ℝ} (h0 : 0 ≤ x) (h1 : x ≤ 1)
    (hu : 2.7182818286 * (1 + x + x ^ 2 / 2 + x ^ 3 / 6 + x ^ 4 / 24 + x ^ 5 / 100) ≤ u) :
    Real.exp (1 + x) ≤ u := by
  rw [Real.exp_add]
  have ha : Real.exp 1 ≤ 2.7182818286 := Real.exp_one_lt_d9.le
  have hb := exp_le_taylor5 h0 h1
  exact le_trans (mul_le_mul ha hb (Real.exp_pos x).le (by norm_num)) hu

/-- Each exponential layer of the density table is non-increasing in
altitude. -/
theorem layerExp_anti {c a s x y : ℝ} (hc : 0 ≤ c) (hs : 0 < s) (hxy : x ≤ y) :
    c * Real.exp (-(y - a) / s) ≤ c * Real.exp (-(x - a) / s) := by
  have harg : -(y - a) / s ≤ -(x - a) / s := by
    rw [div_le_div_iff₀ hs hs]
    nlinarith
  exact mul_le_mul_of_nonneg_left (Real.exp_le_exp.mpr harg) hc

/-- Crossing one layer boundary downward: if `exp t ≤ u` and `b * u ≤ a`
then the next layer's floor value `b` is at most `a * exp (-t)`. -/
theorem layer_boundary_le {a b t u : ℝ} (hb : 0 ≤ b) (h1 : Real.exp t ≤ u)
    (h2 : b * u ≤ a) : b ≤ a * Real.exp (-t) := by
  have hp : (0 : ℝ) < Real.exp t := Real.exp_pos t
  rw [Real.exp_neg]
  have h3 : b * Real.exp t ≤ a := le_trans (mul_le_mul_of_nonneg_left h1 hb) h2
  calc b = b * Real.exp t * (Real.exp t)⁻¹ := by field_simp
  _ ≤ a * (Real.exp t)⁻¹ := mul_le_mul_of_nonneg_right h3 (inv_nonneg.mpr hp.le)

/-! ### Layer-selection equations for `rhoFirst` -/

theorem rhoFirst_eq1 {h : ℝ} (h2 : h < 11000) :
    rhoFirst h = 1.225 * (1 - 0.0065 * h / 288.15) ^ (4.256 : ℝ) := by
  simp only [rhoFirst]
  rw [if_pos h2]

theorem rhoFirst_eq2 {h : ℝ} (h1 : 11000 ≤ h) (h2 : h < 20000) :
    rhoFirst h = 0.3639 * Real.exp (-(h - 11000) / 6341.6) := by
  simp only [rhoFirst]
  rw [if_neg (not_lt.mpr (by linarith)), if_pos h2]

theorem rhoFirst_eq3 {h : ℝ} (h1 : 20000 ≤ h) (h2 : h < 32000) :
    rhoFirst h = 0.0880 * Real.exp (-(h - 20000) / 7360.0) := by
  simp only [rhoFirst]
  rw [if_neg (not_lt.mpr (by linarith)), if_neg (not_lt.mpr (by linarith)), if_pos h2]

theorem rhoFirst_eq4 {h : ℝ} (h1 : 32000 ≤ h) (h2 : h < 47000) :
    rhoFirst h = 0.0132 * Real.exp (-(h - 32000) / 8000.0) := by
  simp only [rhoFirst]
  rw [if_neg (not_lt.mpr (by linarith)), if_neg (not_lt.mpr (by linarith)),
    if_neg (not_lt.mpr (by linarith)), if_pos h2]

theorem rhoFirst_eq5 {h : ℝ} (h1 : 47000 ≤ h) (h2 : h < 51000) :
    rhoFirst h = 0.00143 * Real.exp (-(h - 47000) / 7500.0) := by
  simp only [rhoFirst]
  rw [if_neg (not_lt.mpr (by linarith)), if_neg (not_lt.mpr (by linarith)),
    if_neg (not_lt.mpr (by linarith)), if_neg (not_lt.mpr (by linarith)), if_pos h2]

theorem rhoFirst_eq6 {h : ℝ} (h1 : 51000 ≤ h) (h2 : h < 71000) :
    rhoFirst h = 0.000086 * Real.exp (-(h - 51000) / 10000.0) := by
  simp only [rhoFirst]
  rw [if_neg (not_lt.mpr (by linarith)), if_neg (not_lt.mpr (by linarith)),
    if_neg (not_lt.mpr (by linarith)), if_neg (not_lt.mpr (by linarith)),
    if_neg (not_lt.mpr (by linarith)), if_pos h2]

theorem rhoFirst_eq7 {h : ℝ} (h1 : 71000 ≤ h) (h2 : h < 100000) :
    rhoFirst h = 0.0000032 * Real.exp (-(h - 71000) / 15000.0) := by
  simp only [rhoFirst]
  rw [if_neg (not_lt.mpr (by linarith)), if_neg (not_lt.mpr (by linarith)),
    if_neg (not_lt.mpr (by linarith)), if_neg (not_lt.mpr (by linarith)),
    if_neg (not_lt.mpr (by linarith)), if_neg (not_lt.mpr (by linarith)), if_pos h2]

theorem rhoFirst_eq8 {h : ℝ} (h1 : 100000 ≤ h) (h2 : h < 200000) :
    rhoFirst h = 0.0000001 * Real.exp (-(h - 100000) / 25000.0) := by
  simp only [rhoFirst]
  rw [if_neg (not_lt.mpr (by linarith)), if_neg (not_lt.mpr (by linarith)),
    if_neg (not_lt.mpr (by linarith)), if_neg (not_lt.mpr (by linarith)),
    if_neg (not_lt.mpr (by linarith)), if_neg (not_lt.mpr (by linarith)),
    if_neg (not_lt.mpr (by linarith)), if_pos h2]

theorem rhoFirst_eq9 {h : ℝ} (h1 : 200000 ≤ h) (h2 : h < 500000) :
    rhoFirst h = 0.00000001 * Real.exp (-(h - 200000) / 100000.0) := by
  simp only [rhoFirst]
  rw [if_neg (not_lt.mpr (by linarith)), if_neg (not_lt.mpr (by linarith)),
    if_neg (not_lt.mpr (by linarith)), if_neg (not_lt.mpr (by linarith)),
    if_neg (not_lt.mpr (by linarith)), if_neg (not_lt.mpr (by linarith)),
    if_neg (not_lt.mpr (by linarith)), if_neg (not_lt.mpr (by linarith)), if_pos h2]

theorem rhoFirst_eq10 {h : ℝ} (h1 : 500000 ≤ h) :
    rhoFirst h = 0.000000001 * Real.exp (-(h - 500000) / 500000.0) := by
  simp only [rhoFirst]
  rw [if_neg (not_lt.mpr (by linarith)), if_neg (not_lt.mpr (by linarith)),
    if_neg (not_lt.mpr (by linarith)), if_neg (not_lt.mpr (by linarith)),
    if_neg (not_lt.mpr (by linarith)), if_neg (not_lt.mpr (by linarith)),
    if_neg (not_lt.mpr (by linarith)), if_neg (not_lt.mpr (by linarith)),
    if_neg (not_lt.mpr (by linarith))]


/-! ### Numeric facts at the layer boundaries -/

/-- The troposphere formula evaluated at the 11000 m boundary still exceeds
the next layer's coefficient 0.3639 (the margin is about 5·10⁻⁶).  The rpow
inequality is settled by raising both sides to the 125th power, turning the
exponent 4.256 = 532/125 into natural powers. -/
theorem tropo_bound : (0.3639 : ℝ) ≤ 1.225 * (1 - 0.0065 * 11000 / 288.15) ^ (4.256 : ℝ) := by
  have hb : (1 - 0.0065 * (11000 : ℝ) / 288.15) = 4333 / 5763 := by norm_num
  rw [hb]
  have hbp : (0 : ℝ) ≤ 4333 / 5763 := by norm_num
  have key : ((3639 : ℝ) / 12250) ≤ ((4333 : ℝ) / 5763) ^ ((4.256 : ℝ)) := by
    have h125 : (((4333 : ℝ) / 5763) ^ ((4.256 : ℝ))) ^ (125 : ℕ)
        = ((4333 : ℝ) / 5763) ^ (532 : ℕ) := by
      rw [← Real.rpow_natCast (((4333 : ℝ) / 5763) ^ ((4.256 : ℝ))) 125,
        ← Real.rpow_mul hbp]
      rw [show ((4.256 : ℝ) * (125 : ℕ)) = ((532 : ℕ) : ℝ) by norm_num,
        Real.rpow_natCast]
    refine le_of_pow_le_pow_left₀ (n := 125) (by norm_num) (Real.rpow_nonneg hbp _) ?_
    rw [h125]
    norm_num
  linarith

theorem bd2 : (0.0880 : ℝ) ≤ 0.3639 * Real.exp (-(20000 - 11000) / 6341.6) := by
  rw [show (-((20000 : ℝ) - 11000) / 6341.6) = -((20000 - 11000 : ℝ) / 6341.6) by ring]
  refine layer_boundary_le (u := 4.1352) (by norm_num) ?_ (by norm_num)
  rw [show ((20000 : ℝ) - 11000) / 6341.6 = 1 + 3323 / 7927 by norm_num]
  exact exp_one_add_le (by norm_num) (by norm_num) (by norm_num)

theorem bd3 : (0.0132 : ℝ) ≤ 0.0880 * Real.exp (-(32000 - 20000) / 7360.0) := by
  rw [show (-((32000 : ℝ) - 20000) / 7360.0) = -((32000 - 20000 : ℝ) / 7360.0) by ring]
  refine layer_boundary_le (u := 5.2) (by norm_num) ?_ (by norm_num)
  rw [show ((32000 : ℝ) - 20000) / 7360.0 = 1 + 29 / 46 by norm_num]
  exact exp_one_add_le (by norm_num) (by norm_num) (by norm_num)

theorem bd4 : (0.00143 : ℝ) ≤ 0.0132 * Real.exp (-(47000 - 32000) / 8000.0) := by
  rw [show (-((47000 : ℝ) - 32000) / 8000.0) = -((47000 - 32000 : ℝ) / 8000.0) by ring]
  refine layer_boundary_le (u := 6.6) (by norm_num) ?_ (by norm_num)
  rw [show ((47000 : ℝ) - 32000) / 8000.0 = 1 + 7 / 8 by norm_num]
  exact exp_one_add_le (by norm_num) (by norm_num) (by norm_num)

theorem bd5 : (0.000086 : ℝ) ≤ 0.00143 * Real.exp (-(51000 - 47000) / 7500.0) := by
  rw [show (-((51000 : ℝ) - 47000) / 7500.0) = -((51000 - 47000 : ℝ) / 7500.0) by ring]
  refine layer_boundary_le (u := 1.8) (by norm_num) ?_ (by norm_num)
  rw [show ((51000 : ℝ) - 47000) / 7500.0 = 8 / 15 by norm_num]
  exact (exp_le_taylor5 (by norm_num) (by norm_num)).trans (by norm_num)

theorem bd6 : (0.0000032 : ℝ) ≤ 0.000086 * Real.exp (-(71000 - 51000) / 10000.0) := by
  rw [show (-((71000 : ℝ) - 51000) / 10000.0) = -((71000 - 51000 : ℝ) / 10000.0) by ring]
  refine layer_boundary_le (u := 7.4) (by norm_num) ?_ (by norm_num)
  rw [show ((71000 : ℝ) - 51000) / 10000.0 = 1 + 1 by norm_num]
  exact exp_one_add_le (by norm_num) (by norm_num) (by norm_num)

theorem bd7 : (0.0000001 : ℝ) ≤ 0.0000032 * Real.exp (-(100000 - 71000) / 15000.0) := by
  rw [show (-((100000 : ℝ) - 71000) / 15000.0) = -((100000 - 71000 : ℝ) / 15000.0) by ring]
  refine layer_boundary_le (u := 7.1) (by norm_num) ?_ (by norm_num)
  rw [show ((100000 : ℝ) - 71000) / 15000.0 = 1 + 14 / 15 by norm_num]
  exact exp_one_add_le (by norm_num) (by norm_num) (by norm_num)

/-- Values of `rhoFirst` at the layer floors (each layer's formula at its
own floor reduces to its coefficient). -/
theorem rhoFirst_val_11000 : rhoFirst 11000 = 0.3639 := by
  rw [rhoFirst_eq2 le_rfl (by norm_num)]
  norm_num

theorem rhoFirst_val_20000 : rhoFirst 20000 = 0.0880 := by
  rw [rhoFirst_eq3 le_rfl (by norm_num)]
  norm_num

theorem rhoFirst_val_32000 : rhoFirst 32000 = 0.0132 := by
  rw [rhoFirst_eq4 le_rfl (by norm_num)]
  norm_num

theorem rhoFirst_val_47000 : rhoFirst 47000 = 0.00143 := by
  rw [rhoFirst_eq5 le_rfl (by norm_num)]
  norm_num

theorem rhoFirst_val_51000 : rhoFirst 51000 = 0.000086 := by
  rw [rhoFirst_eq6 le_rfl (by norm_num)]
  norm_num

theorem rhoFirst_val_71000 : rhoFirst 71000 = 0.0000032 := by
  rw [rhoFirst_eq7 le_rfl (by norm_num)]
  norm_num

theorem rhoFirst_val_100000 : rhoFirst 100000 = 0.0000001 := by
  rw [rhoFirst_eq8 le_rfl (by norm_num)]
  norm_num


/-! ### Per-layer antitonicity (closed up to each boundary) -/

theorem seg1_anti : ∀ x y : ℝ, 0 ≤ x → x ≤ y → y ≤ 11000 → rhoFirst y ≤ rhoFirst x := by
  intro x y hx hxy hy
  rcases lt_or_eq_of_le hy with hy2 | hy2
  · rw [rhoFirst_eq1 hy2, rhoFirst_eq1 (lt_of_le_of_lt hxy hy2)]
    have hby : (0 : ℝ) ≤ 1 - 0.0065 * y / 288.15 := by norm_num; linarith
    have hmono : 1 - 0.0065 * y / 288.15 ≤ 1 - 0.0065 * x / 288.15 := by
      norm_num
      linarith
    exact mul_le_mul_of_nonneg_left (Real.rpow_le_rpow hby hmono (by norm_num)) (by norm_num)
  · subst hy2
    rw [rhoFirst_val_11000]
    rcases lt_or_eq_of_le hxy with hx2 | hx2
    · rw [rhoFirst_eq1 hx2]
      calc (0.3639 : ℝ) ≤ 1.225 * (1 - 0.0065 * 11000 / 288.15) ^ (4.256 : ℝ) := tropo_bound
      _ ≤ 1.225 * (1 - 0.0065 * x / 288.15) ^ (4.256 : ℝ) := by
          refine mul_le_mul_of_nonneg_left ?_ (by norm_num)
          exact Real.rpow_le_rpow (by norm_num) (by norm_num; linarith) (by norm_num)
    · rw [hx2, rhoFirst_val_11000]

theorem seg2_anti : ∀ x y : ℝ, 11000 ≤ x → x ≤ y → y ≤ 20000 → rhoFirst y ≤ rhoFirst x := by
  intro x y hx hxy hy
  rcases lt_or_eq_of_le hy with hy2 | hy2
  · rw [rhoFirst_eq2 (hx.trans hxy) hy2, rhoFirst_eq2 hx (lt_of_le_of_lt hxy hy2)]
    exact layerExp_anti (by norm_num) (by norm_num) hxy
  · subst hy2
    rw [rhoFirst_val_20000]
    rcases lt_or_eq_of_le hxy with hx2 | hx2
    · rw [rhoFirst_eq2 hx hx2]
      calc (0.0880 : ℝ) ≤ 0.3639 * Real.exp (-(20000 - 11000) / 6341.6) := bd2
      _ ≤ 0.3639 * Real.exp (-(x - 11000) / 6341.6) :=
          layerExp_anti (by norm_num) (by norm_num) hx2.le
    · rw [hx2, rhoFirst_val_20000]

theorem seg3_anti : ∀ x y : ℝ, 20000 ≤ x → x ≤ y → y ≤ 32000 → rhoFirst y ≤ rhoFirst x := by
  intro x y hx hxy hy
  rcases lt_or_eq_of_le hy with hy2 | hy2
  · rw [rhoFirst_eq3 (hx.trans hxy) hy2, rhoFirst_eq3 hx (lt_of_le_of_lt hxy hy2)]
    exact layerExp_anti (by norm_num) (by norm_num) hxy
  · subst hy2
    rw [rhoFirst_val_32000]
    rcases lt_or_eq_of_le hxy with hx2 | hx2
    · rw [rhoFirst_eq3 hx hx2]
      calc (0.0132 : ℝ) ≤ 0.0880 * Real.exp (-(32000 - 20000) / 7360.0) := bd3
      _ ≤ 0.0880 * Real.exp (-(x - 20000) / 7360.0) :=
          layerExp_anti (by norm_num) (by norm_num) hx2.le
    · rw [hx2, rhoFirst_val_32000]

theorem seg4_anti : ∀ x y : ℝ, 32000 ≤ x → x ≤ y → y ≤ 47000 → rhoFirst y ≤ rhoFirst x := by
  intro x y hx hxy hy
  rcases lt_or_eq_of_le hy with hy2 | hy2
  · rw [rhoFirst_eq4 (hx.trans hxy) hy2, rhoFirst_eq4 hx (lt_of_le_of_lt hxy hy2)]
    exact layerExp_anti (by norm_num) (by norm_num) hxy
  · subst hy2
    rw [rhoFirst_val_47000]
    rcases lt_or_eq_of_le hxy with hx2 | hx2
    · rw [rhoFirst_eq4 hx hx2]
      calc (0.00143 : ℝ) ≤ 0.0132 * Real.exp (-(47000 - 32000) / 8000.0) := bd4
      _ ≤ 0.0132 * Real.exp (-(x - 32000) / 8000.0) :=
          layerExp_anti (by norm_num) (by norm_num) hx2.le
    · rw [hx2, rhoFirst_val_47000]

theorem seg5_anti : ∀ x y : ℝ, 47000 ≤ x → x ≤ y → y ≤ 51000 → rhoFirst y ≤ rhoFirst x := by
  intro x y hx hxy hy
  rcases lt_or_eq_of_le hy with hy2 | hy2
  · rw [rhoFirst_eq5 (hx.trans hxy) hy2, rhoFirst_eq5 hx (lt_of_le_of_lt hxy hy2)]
    exact layerExp_anti (by norm_num) (by norm_num) hxy
  · subst hy2
    rw [rhoFirst_val_51000]
    rcases lt_or_eq_of_le hxy with hx2 | hx2
    · rw [rhoFirst_eq5 hx hx2]
      calc (0.000086 : ℝ) ≤ 0.00143 * Real.exp (-(51000 - 47000) / 7500.0) := bd5
      _ ≤ 0.00143 * Real.exp (-(x - 47000) / 7500.0) :=
          layerExp_anti (by norm_num) (by norm_num) hx2.le
    · rw [hx2, rhoFirst_val_51000]

theorem seg6_anti : ∀ x y : ℝ, 51000 ≤ x → x ≤ y → y ≤ 71000 → rhoFirst y ≤ rhoFirst x := by
  intro x y hx hxy hy
  rcases lt_or_eq_of_le hy with hy2 | hy2
  · rw [rhoFirst_eq6 (hx.trans hxy) hy2, rhoFirst_eq6 hx (lt_of_le_of_lt hxy hy2)]
    exact layerExp_anti (by norm_num) (by norm_num) hxy
  · subst hy2
    rw [rhoFirst_val_71000]
    rcases lt_or_eq_of_le hxy with hx2 | hx2
    · rw [rhoFirst_eq6 hx hx2]
      calc (0.0000032 : ℝ) ≤ 0.000086 * Real.exp (-(71000 - 51000) / 10000.0) := bd6
      _ ≤ 0.000086 * Real.exp (-(x - 51000) / 10000.0) :=
          layerExp_anti (by norm_num) (by norm_num) hx2.le
    · rw [hx2, rhoFirst_val_71000]

theorem seg7_anti : ∀ x y : ℝ, 71000 ≤ x → x ≤ y → y ≤ 100000 → rhoFirst y ≤ rhoFirst x := by
  intro x y hx hxy hy
  rcases lt_or_eq_of_le hy with hy2 | hy2
  · rw [rhoFirst_eq7 (hx.trans hxy) hy2, rhoFirst_eq7 hx (lt_of_le_of_lt hxy hy2)]
    exact layerExp_anti (by norm_num) (by norm_num) hxy
  · subst hy2
    rw [rhoFirst_val_100000]
    rcases lt_or_eq_of_le hxy with hx2 | hx2
    · rw [rhoFirst_eq7 hx hx2]
      calc (0.0000001 : ℝ) ≤ 0.0000032 * Real.exp (-(100000 - 71000) / 15000.0) := bd7
      _ ≤ 0.0000032 * Real.exp (-(x - 71000) / 15000.0) :=
          layerExp_anti (by norm_num) (by norm_num) hx2.le
    · rw [hx2, rhoFirst_val_100000]

theorem seg8_anti : ∀ x y : ℝ, 100000 ≤ x → x ≤ y → y < 200000 → rhoFirst y ≤ rhoFirst x := by
  intro x y hx hxy hy
  rw [rhoFirst_eq8 (hx.trans hxy) hy, rhoFirst_eq8 hx (lt_of_le_of_lt hxy hy)]
  exact layerExp_anti (by norm_num) (by norm_num) hxy

theorem seg9_anti : ∀ x y : ℝ, 200000 ≤ x → x ≤ y → y < 500000 → rhoFirst y ≤ rhoFirst x := by
  intro x y hx hxy hy
  rw [rhoFirst_eq9 (hx.trans hxy) hy, rhoFirst_eq9 hx (lt_of_le_of_lt hxy hy)]
  exact layerExp_anti (by norm_num) (by norm_num) hxy

theorem seg10_anti : ∀ x y : ℝ, 500000 ≤ x → x ≤ y → rhoFirst y ≤ rhoFirst x := by
  intro x y hx hxy
  rw [rhoFirst_eq10 (hx.trans hxy), rhoFirst_eq10 hx]
  exact layerExp_anti (by norm_num) (by norm_num) hxy

/-- Gluing antitonicity on `[a, b]` and `[b, c]` into `[a, c]`. -/
theorem glue_anti (f : ℝ → ℝ) (a b c : ℝ)
    (h1 : ∀ x y, a ≤ x → x ≤ y → y ≤ b → f y ≤ f x)
    (h2 : ∀ x y, b ≤ x → x ≤ y → y ≤ c → f y ≤ f x) :
    ∀ x y, a ≤ x → x ≤ y → y ≤ c → f y ≤ f x := by
  intro x y hx hxy hy
  rcases le_total y b with h | h
  · exact h1 x y hx hxy h
  · rcases le_total x b with h3 | h3
    · exact le_trans (h2 b y le_rfl h hy) (h1 x b hx h3 le_rfl)
    · exact h2 x y h3 hxy hy

theorem rho_anti_0_100000 :
    ∀ x y : ℝ, 0 ≤ x → x ≤ y → y ≤ 100000 → rhoFirst y ≤ rhoFirst x :=
  glue_anti _ 0 71000 100000
    (glue_anti _ 0 51000 71000
      (glue_anti _ 0 47000 51000
        (glue_anti _ 0 32000 47000
          (glue_anti _ 0 20000 32000
            (glue_anti _ 0 11000 20000 seg1_anti seg2_anti) seg3_anti)
          seg4_anti)
        seg5_anti)
      seg6_anti)
    seg7_anti

theorem rho_anti_below200 :
    ∀ x y : ℝ, 0 ≤ x → x ≤ y → y < 200000 → rhoFirst y ≤ rhoFirst x := by
  intro x y hx hxy hy
  rcases le_total y 100000 with h | h
  · exact rho_anti_0_100000 x y hx hxy h
  · rcases le_total x 100000 with h3 | h3
    · exact le_trans (seg8_anti 100000 y le_rfl h hy) (rho_anti_0_100000 x 100000 hx h3 le_rfl)
    · exact seg8_anti x y h3 hxy hy

/-! ### Sea-level value, nonnegativity, and the boundary jumps -/

theorem rhoFirst_zero : rhoFirst 0 = 1.225 := by
  rw [rhoFirst_eq1 (by norm_num),
    show (1 - 0.0065 * (0 : ℝ) / 288.15) = 1 by norm_num, Real.one_rpow]
  norm_num

theorem rhoFirst_nonneg : ∀ h : ℝ, 0 ≤ h → 0 ≤ rhoFirst h := by
  intro h h0
  simp only [rhoFirst]
  split_ifs with h1
  · have hb : (0 : ℝ) ≤ 1 - 0.0065 * h / 288.15 := by norm_num; linarith
    exact mul_nonneg (by norm_num) (Real.rpow_nonneg hb _)
  all_goals positivity

theorem exp_three_gt : (10 : ℝ) < Real.exp 3 := by
  have h : Real.exp 3 = Real.exp 1 ^ 3 := by
    rw [show (3 : ℝ) = ((3 : ℕ) : ℝ) * 1 by norm_num, Real.exp_nat_mul]
  rw [h]
  calc (10 : ℝ) < 2.7182818283 ^ 3 := by norm_num
  _ ≤ Real.exp 1 ^ 3 := pow_le_pow_left₀ (by norm_num) Real.exp_one_gt_d9.le 3

theorem exp_two_nine_gt : (10 : ℝ) < Real.exp (29 / 10) := by
  rw [show (29 : ℝ) / 10 = 1 + (1 + 9 / 10) by norm_num, Real.exp_add, Real.exp_add]
  have h1 := Real.exp_one_gt_d9
  have h2 : (1 : ℝ) + 9 / 10 ≤ Real.exp (9 / 10) := by
    have := Real.add_one_le_exp (9 / 10 : ℝ)
    linarith
  have hstep : 2.7182818283 * (1 + 9 / 10) ≤ Real.exp 1 * Real.exp (9 / 10) :=
    mul_le_mul h1.le h2 (by norm_num) (Real.exp_pos 1).le
  calc (10 : ℝ) < 2.7182818283 * (2.7182818283 * (1 + 9 / 10)) := by norm_num
  _ ≤ Real.exp 1 * (Real.exp 1 * Real.exp (9 / 10)) :=
      mul_le_mul h1.le hstep (by norm_num) (Real.exp_pos 1).le

/-- The density jumps UP by a factor of about 5.5 across the 200 km layer
boundary: the LEO layer has decayed to 1e-7·exp(-3) ≈ 1.83e-9 just below
200 km, while the MEO layer restarts at 1e-8. -/
theorem rho_inc_200000 : rhoFirst 175000 < rhoFirst 200000 := by
  rw [rhoFirst_eq8 (by norm_num) (by norm_num), rhoFirst_eq9 le_rfl (by norm_num)]
  rw [show (-((175000 : ℝ) - 100000) / 25000.0) = -3 by norm_num,
    show (-((200000 : ℝ) - 200000) / 100000.0) = 0 by norm_num,
    Real.exp_zero, mul_one, Real.exp_neg]
  have hpos : (0 : ℝ) < Real.exp 3 := Real.exp_pos 3
  rw [mul_inv_lt_iff₀' hpos]
  nlinarith [exp_three_gt]

/-- The density also jumps UP across the 500 km layer boundary. -/
theorem rho_inc_500000 : rhoFirst 490000 < rhoFirst 500000 := by
  rw [rhoFirst_eq9 (by norm_num) (by norm_num), rhoFirst_eq10 le_rfl]
  rw [show (-((490000 : ℝ) - 200000) / 100000.0) = -(29 / 10) by norm_num,
    show (-((500000 : ℝ) - 500000) / 500000.0) = 0 by norm_num,
    Real.exp_zero, mul_one, Real.exp_neg]
  have hpos : (0 : ℝ) < Real.exp (29 / 10) := Real.exp_pos _
  rw [mul_inv_lt_iff₀' hpos]
  nlinarith [exp_two_nine_gt]

/-- Counterexample to claim C2: the density function is NOT monotonically
non-increasing over the whole domain — it strictly increases from altitude
175000 m to the 200000 m layer boundary. -/
theorem claim2_density_monotonicity_cex :
    (175000 : ℝ) ≤ 200000 ∧ rhoFirst 175000 < rhoFirst 200000 :=
  ⟨by norm_num, rho_inc_200000⟩

/-- Claim C2 (amended): the density function satisfies density(0) = 1.225
and is nonnegative on the whole domain, and it is monotonically
non-increasing on [0, 200000) — within every layer and across the seven
layer boundaries up to 100 km, including the tight troposphere and
stratosphere joins — and within [200000, 500000) and [500000, ∞); but it
strictly INCREASES across the 200000 m and 500000 m layer boundaries, so
monotonicity over the whole domain fails exactly there. -/
theorem claim2_density_monotonicity :
    rhoFirst 0 = 1.225 ∧
    (∀ h : ℝ, 0 ≤ h → 0 ≤ rhoFirst h) ∧
    (∀ x y : ℝ, 0 ≤ x → x ≤ y → y < 200000 → rhoFirst y ≤ rhoFirst x) ∧
    (∀ x y : ℝ, 200000 ≤ x → x ≤ y → y < 500000 → rhoFirst y ≤ rhoFirst x) ∧
    (∀ x y : ℝ, 500000 ≤ x → x ≤ y → rhoFirst y ≤ rhoFirst x) ∧
    rhoFirst 175000 < rhoFirst 200000 ∧
    rhoFirst 490000 < rhoFirst 500000 :=
  ⟨rhoFirst_zero, rhoFirst_nonneg, rho_anti_below200, seg9_anti, seg10_anti,
   rho_inc_200000, rho_inc_500000⟩

theorem claim2_density_monotonicity_witness :
    (0 : ℝ) ≤ 50000 ∧ (50000 : ℝ) ≤ 150000 ∧ (150000 : ℝ) < 200000 ∧
    rhoFirst 150000 ≤ rhoFirst 50000 :=
  ⟨by norm_num, by norm_num, by norm_num,
   claim2_density_monotonicity.2.2.1 50000 150000 (by norm_num) (by norm_num) (by norm_num)⟩

end
